import Mathlib

/-!
Shallow embedding of the `bild-zu-text` OCR front end (src/App.tsx).

The component's React state hooks become fields of `AppState`; each event
handler becomes a state transformer.  Async handlers are split at their
`await` points: `processImageStart` is the synchronous prefix of
`processImage` up to the `recognize` call, and `recognizeOkCont` /
`recognizeFailCont` are the two continuations of that call.  Likewise
`initStartStep` / `initOkCont` / `initFailCont` embed the mount-time
`initializeWorker` effect.  `handlePaste` is split the same way: the
click-time prefix either reports the missing clipboard API synchronously
or starts a read (counted by `pendingReads`), and `pasteSettleCont` is the
continuation run — with no gate — when `navigator.clipboard.read()`
settles; `handlePaste` as a function of a `ClipboardRead` outcome remains
the handler's end-to-end effect on an otherwise quiescent state.

Resources are made observable: object URLs are numbered by a fresh-name
counter `nextUrl`, the list `alive` holds the URLs created and not yet
revoked, `inFlight` counts outstanding `recognize` calls, and
`engineTerminated` records whether `worker.terminate()` ran.
-/

set_option autoImplicit false

namespace OCRApp

/-- The `Stage` union type of App.tsx. -/
inductive Stage where
| idle
| initializing
| recognizing
| done
deriving DecidableEq, Repr

/-- The `progress` state hook: `{ status, progress }` from the Tesseract
logger messages; the fraction is modelled as a rational. -/
structure Progress where
  status : String
  progress : ℚ
deriving DecidableEq, Repr

/-- The component state of `App`: one field per `useState`/`useRef` hook,
plus bookkeeping fields that make resource effects observable. -/
structure AppState where
  /-- `image` hook: object URL of the preview, by numeric id. -/
  image : Option ℕ
  /-- `text` hook: the recognized text. -/
  text : String
  /-- `error` hook. -/
  error : Option String
  /-- `stage` hook. -/
  stage : Stage
  /-- `progress` hook. -/
  progress : Progress
  /-- `workerReady` hook. -/
  workerReady : Bool
  /-- `workerRef.current` present? -/
  worker : Bool
  /-- has `terminate()` been called on the worker? -/
  engineTerminated : Bool
  /-- `copyButtonText` hook. -/
  copyButtonText : String
  /-- the hidden file input's `value`. -/
  inputValue : String
  /-- fresh-name counter for `URL.createObjectURL`. -/
  nextUrl : ℕ
  /-- object URLs created and not yet revoked. -/
  alive : List ℕ
  /-- number of outstanding `recognize` calls. -/
  inFlight : ℕ
  /-- number of `navigator.clipboard.read()` calls started and not yet
  settled. -/
  pendingReads : ℕ
deriving DecidableEq, Repr

/-- Error message set on `initializeWorker` failure. -/
def initErrMsg : String :=
  "Tesseract.js konnte nicht initialisiert werden. Bitte laden Sie die Seite neu."

/-- Error message set on `recognize` failure. -/
def recognizeErrMsg : String :=
  "Fehler bei der Texterkennung. Versuchen Sie es mit einem anderen Bild."

/-- Error message when `navigator.clipboard.read` is unavailable. -/
def pasteUnsupportedMsg : String :=
  "Die Zwischenablage-API wird von Ihrem Browser nicht unterst端tzt."

/-- Error message when clipboard access is denied (`NotAllowedError`). -/
def pasteDeniedMsg : String :=
  "Zugriff auf die Zwischenablage wurde verweigert."

/-- Error message when no image item is found in the clipboard. -/
def pasteNoImageMsg : String :=
  "Kein Bild in der Zwischenablage gefunden."

/-- Error message for any other clipboard read failure. -/
def pasteGenericMsg : String :=
  "Fehler beim Einf端gen aus der Zwischenablage."

/-- `updateProgress` callback: stores status and fraction together. -/
def updateProgress (status : String) (fraction : ℚ) (s : AppState) : AppState :=
  { s with progress := ⟨status, fraction⟩ }

/-- Synchronous start of `initializeWorker`: `setStage('initializing')`. -/
def initStartStep (s : AppState) : AppState :=
  { s with stage := Stage.initializing }

/-- Continuation of `initializeWorker` when `createWorker`/`loadLanguage`/
engine setup succeed: store the worker ref, mark ready, go `idle`. -/
def initOkCont (s : AppState) : AppState :=
  { s with worker := true, workerReady := true, stage := Stage.idle }

/-- Continuation of `initializeWorker` on rejection: set the fixed error
message and go `idle` (the worker ref stays `null`). -/
def initFailCont (s : AppState) : AppState :=
  { s with error := some initErrMsg, stage := Stage.idle }

/-- Synchronous prefix of `processImage` up to the `recognize` call:
guard on `workerRef.current`, clear error and text, enter `recognizing`,
revoke the previous object URL if any, create and store a fresh one, and
issue the `recognize` call (counted by `inFlight`). -/
def processImageStart (s : AppState) : AppState :=
  if s.worker = true then
    { s with
        error := none,
        text := "",
        stage := Stage.recognizing,
        image := some s.nextUrl,
        alive := (match s.image with
                  | some u => s.alive.filter (fun v => v != u)
                  | none => s.alive) ++ [s.nextUrl],
        nextUrl := s.nextUrl + 1,
        inFlight := s.inFlight + 1 }
  else s

/-- Continuation of `processImage` when `recognize` resolves with
`{ data: { text } }`: store the text and enter `done`. -/
def recognizeOkCont (t : String) (s : AppState) : AppState :=
  { s with text := t, stage := Stage.done, inFlight := s.inFlight - 1 }

/-- Continuation of `processImage` when `recognize` rejects: set the fixed
error message and return to `idle`; the preview image is left untouched. -/
def recognizeFailCont (s : AppState) : AppState :=
  { s with error := some recognizeErrMsg, stage := Stage.idle, inFlight := s.inFlight - 1 }

/-- `handleFileSelect`: submit the selected file if any, else do nothing. -/
def handleFileSelect (file : Option Unit) (s : AppState) : AppState :=
  match file with
  | some _ => processImageStart s
  | none => s

/-- A clipboard item, exposing its list of MIME types. -/
structure ClipboardItem where
  types : List String
deriving DecidableEq, Repr

/-- The settled outcome of the clipboard read attempted by `handlePaste`:
the API may be missing, the read may reject (with or without the name
`NotAllowedError`), or it yields a list of items. -/
inductive ClipboardRead where
| unavailable
| rejected (notAllowed : Bool)
| ok (items : List ClipboardItem)
deriving DecidableEq, Repr

/-- JavaScript `s.startsWith(p)`: the characters of `p` are a prefix of
the characters of `s`. -/
def jsStartsWith (s p : String) : Bool :=
  p.data.isPrefixOf s.data

/-- `item.types.find(type => type.startsWith('image/'))`. -/
def findImageType (item : ClipboardItem) : Option String :=
  item.types.find? (fun t => jsStartsWith t "image/")

/-- The `for (const item of clipboardItems)` loop of `handlePaste`: the
image type of the first item that has one (the loop `break`s there). -/
def findImageItem : List ClipboardItem → Option String
| [] => none
| item :: rest =>
    match findImageType item with
    | some t => some t
    | none => findImageItem rest

/-- `handlePaste`, as a function of the settled clipboard read outcome:
missing API and read rejections set their respective messages; with items,
the first image entry is submitted via `processImage`, and the absence of
one sets the no-image message. -/
def handlePaste (c : ClipboardRead) (s : AppState) : AppState :=
  match c with
  | ClipboardRead.unavailable => { s with error := some pasteUnsupportedMsg }
  | ClipboardRead.rejected notAllowed =>
      if notAllowed then { s with error := some pasteDeniedMsg }
      else { s with error := some pasteGenericMsg }
  | ClipboardRead.ok items =>
      match findImageItem items with
      | some _ => processImageStart s
      | none => { s with error := some pasteNoImageMsg }

/-- Synchronous prefix of `handlePaste` when `navigator.clipboard.read`
exists: the read is issued and the handler suspends until it settles. -/
def pasteClickStartStep (s : AppState) : AppState :=
  { s with pendingReads := s.pendingReads + 1 }

/-- The settled outcome of a pending `navigator.clipboard.read()` call:
rejection (with or without the name `NotAllowedError`) or a list of
items.  The missing-API case is not an outcome: it is checked
synchronously at click time, before any read starts. -/
inductive PasteOutcome where
| rejected (notAllowed : Bool)
| ok (items : List ClipboardItem)
deriving DecidableEq, Repr

/-- Continuation of `handlePaste` when its clipboard read settles: the
rest of the `try`/`catch` body, run on the then-current state — the source
has no gate here. -/
def pasteSettleCont (c : PasteOutcome) (s : AppState) : AppState :=
  match c with
  | PasteOutcome.rejected b =>
      { handlePaste (ClipboardRead.rejected b) s with pendingReads := s.pendingReads - 1 }
  | PasteOutcome.ok items =>
      { handlePaste (ClipboardRead.ok items) s with pendingReads := s.pendingReads - 1 }

/-- `handleReset`: revoke the current object URL if any, then clear image,
text, error, stage, progress and the file input value. -/
def handleReset (s : AppState) : AppState :=
  { s with
      alive := match s.image with
               | some u => s.alive.filter (fun v => v != u)
               | none => s.alive,
      image := none,
      text := "",
      error := none,
      stage := Stage.idle,
      progress := ⟨"", 0⟩,
      inputValue := "" }

/-- `handleCopy`: flip the copy button label (the clipboard write itself
is outside the model). -/
def handleCopy (s : AppState) : AppState :=
  { s with copyButtonText := "Kopiert!" }

/-- The `setTimeout` continuation of `handleCopy`. -/
def copyRevertStep (s : AppState) : AppState :=
  { s with copyButtonText := "Kopieren" }

/-- The `useEffect` cleanup at unmount: `workerRef.current?.terminate()`
then `workerRef.current = null`.  No object URL is revoked here. -/
def unmountCleanup (s : AppState) : AppState :=
  { s with
      engineTerminated := if s.worker = true then true else s.engineTerminated,
      worker := false }

/-- `isProcessing` of the render: stage is `initializing` or `recognizing`. -/
def isProcessing (s : AppState) : Bool :=
  s.stage == Stage.initializing || s.stage == Stage.recognizing

/-- The acquisition buttons are rendered iff `stage !== 'done' && !text`
and enabled iff `workerReady && !isProcessing`; a click is possible only
when both hold. -/
def acquisitionControlsEnabled (s : AppState) : Bool :=
  (!(s.stage == Stage.done) && (s.text == "")) && (s.workerReady && !(isProcessing s))

/-- The copy/reset actions are rendered iff `text` is non-empty. -/
def resultActionsVisible (s : AppState) : Bool :=
  !(s.text == "")

/-- The initial hook values of `App`. -/
def S0 : AppState where
  image := none
  text := ""
  error := none
  stage := Stage.idle
  progress := ⟨"", 0⟩
  workerReady := false
  worker := false
  engineTerminated := false
  copyButtonText := "Kopieren"
  inputValue := ""
  nextUrl := 0
  alive := []
  inFlight := 0
  pendingReads := 0

/-- The state right after mount: `initializeWorker` has set `initializing`. -/
def S1 : AppState := initStartStep S0

/-- The state after the engine initialized successfully. -/
def S2 : AppState := initOkCont S1

/-- The state after a first image submission: `recognizing`, preview URL 0
alive, one `recognize` call outstanding. -/
def S3 : AppState := processImageStart S2

/-- A ready idle state carrying a stale progress value from a previous
attempt. -/
def staleProgressState : AppState := { S2 with progress := ⟨"recognizing text", 1⟩ }

/-- A clipboard item carrying an image. -/
def imageItem : ClipboardItem := ClipboardItem.mk ["image/png"]

/-- Ready idle state with one clipboard read pending (paste clicked, read
not yet settled). -/
def pendingPasteState : AppState := pasteClickStartStep S2

/-- A file was submitted while the clipboard read was still pending. -/
def raceRecognizingState : AppState := processImageStart pendingPasteState

/-- The pending read then rejected with `NotAllowedError`: the error is
set while the stage is still `recognizing`. -/
def raceErrorState : AppState :=
  pasteSettleCont (PasteOutcome.rejected true) raceRecognizingState

/-- The recognition then resolved: `done` with both text and error set. -/
def raceDoneState : AppState := recognizeOkCont "Hallo Welt" raceErrorState

/-- Ready idle state with two clipboard reads pending (paste clicked
twice; the gate holds at both clicks). -/
def doublePendingState : AppState := pasteClickStartStep pendingPasteState

/-- The first pending read resolved with an image: one recognition in
flight. -/
def firstFlightState : AppState :=
  pasteSettleCont (PasteOutcome.ok [imageItem]) doublePendingState

/-- The second pending read also resolved with an image: its ungated
continuation calls `processImage` again — two recognitions in flight. -/
def doubleFlightState : AppState :=
  pasteSettleCont (PasteOutcome.ok [imageItem]) firstFlightState

/-- One event of the running component.  User events fire only when the
render makes the corresponding control visible and enabled — the gate is
checked at click time; continuations of suspended calls (`recognize`, the
clipboard read) fire whenever their call is outstanding, with no gate. -/
inductive Step : AppState → AppState → Prop where
| initOk {s : AppState} (h : s.stage = Stage.initializing) : Step s (initOkCont s)
| initFail {s : AppState} (h : s.stage = Stage.initializing) : Step s (initFailCont s)
| submit {s : AppState} (h : acquisitionControlsEnabled s = true) :
    Step s (processImageStart s)
| pasteClickNoApi {s : AppState} (h : acquisitionControlsEnabled s = true) :
    Step s (handlePaste ClipboardRead.unavailable s)
| pasteClickStart {s : AppState} (h : acquisitionControlsEnabled s = true) :
    Step s (pasteClickStartStep s)
| pasteSettle {s : AppState} (c : PasteOutcome) (h : 1 ≤ s.pendingReads) :
    Step s (pasteSettleCont c s)
| recogOk {s : AppState} (t : String) (h : 1 ≤ s.inFlight) : Step s (recognizeOkCont t s)
| recogFail {s : AppState} (h : 1 ≤ s.inFlight) : Step s (recognizeFailCont s)
| reset {s : AppState} (h : resultActionsVisible s = true) : Step s (handleReset s)
| copy {s : AppState} (h : resultActionsVisible s = true) : Step s (handleCopy s)
| copyRevert {s : AppState} : Step s (copyRevertStep s)
| progressEvent {s : AppState} (st : String) (f : ℚ) : Step s (updateProgress st f s)

/-- States the mounted component can reach. -/
inductive Reachable : AppState → Prop where
| init : Reachable S1
| step {s s' : AppState} : Reachable s → Step s s' → Reachable s'

theorem processImageStart_worker_none {s : AppState} (h : s.worker = false) :
    processImageStart s = s := by
  simp [processImageStart, h]

theorem processImageStart_worker_some {s : AppState} (h : s.worker = true) :
    (processImageStart s).error = none ∧
    (processImageStart s).text = "" ∧
    (processImageStart s).stage = Stage.recognizing ∧
    (processImageStart s).image = some s.nextUrl ∧
    (processImageStart s).nextUrl = s.nextUrl + 1 ∧
    (processImageStart s).inFlight = s.inFlight + 1 ∧
    (processImageStart s).progress = s.progress ∧
    (processImageStart s).worker = s.worker := by
  cases himg : s.image <;> simp [processImageStart, h, himg]

theorem reach_S2 : Reachable S2 :=
  Reachable.step Reachable.init (Step.initOk rfl)

theorem reach_S3 : Reachable S3 :=
  Reachable.step reach_S2 (Step.submit (by decide))

theorem reach_pendingPaste : Reachable pendingPasteState :=
  Reachable.step reach_S2 (Step.pasteClickStart (by decide))

theorem reach_raceRecognizing : Reachable raceRecognizingState :=
  Reachable.step reach_pendingPaste (Step.submit (by decide))

theorem reach_raceError : Reachable raceErrorState :=
  Reachable.step reach_raceRecognizing
    (Step.pasteSettle (PasteOutcome.rejected true) (by decide))

theorem reach_raceDone : Reachable raceDoneState :=
  Reachable.step reach_raceError (Step.recogOk "Hallo Welt" (by decide))

theorem reach_doublePending : Reachable doublePendingState :=
  Reachable.step reach_pendingPaste (Step.pasteClickStart (by decide))

theorem reach_firstFlight : Reachable firstFlightState :=
  Reachable.step reach_doublePending
    (Step.pasteSettle (PasteOutcome.ok [imageItem]) (by decide))

theorem reach_doubleFlight : Reachable doubleFlightState :=
  Reachable.step reach_firstFlight
    (Step.pasteSettle (PasteOutcome.ok [imageItem]) (by decide))

/-- C1 (counterexample): `processImage` is not a no-op when called while the
controller is already in `recognizing` with the engine usable: from the
reachable recognizing state `S3` it changes the state and leaves two
recognition calls in flight. -/
theorem C1_counterexample : processImageStart S3 ≠ S3 ∧
    (processImageStart S3).inFlight = 2 := by decide

/-- C1 (amended): `processImage` is a no-op exactly when the engine worker
is absent; with the worker present it always proceeds — entering
`recognizing` with a fresh `ImageHandle` and one more `recognize` call in
flight — even from stage `recognizing`.  At-most-one-in-flight is not
enforced: the click-time gate does not cover the ungated clipboard-read
continuations, and a reachable state with two recognitions in flight is
exhibited (two paste clicks at `idle`, both reads resolving with
images). -/
theorem C1_submit_contract :
    (∀ s : AppState, s.worker = false → processImageStart s = s) ∧
    (∀ s : AppState, s.worker = true →
      (processImageStart s).stage = Stage.recognizing ∧
      (processImageStart s).image = some s.nextUrl ∧
      (processImageStart s).nextUrl = s.nextUrl + 1 ∧
      (processImageStart s).inFlight = s.inFlight + 1) ∧
    (Reachable doubleFlightState ∧ doubleFlightState.inFlight = 2) := by
  refine ⟨fun s h => processImageStart_worker_none h, fun s h => ?_,
    reach_doubleFlight, by decide⟩
  obtain ⟨-, -, hst, him, hn, hf, -, -⟩ := processImageStart_worker_some h
  exact ⟨hst, him, hn, hf⟩

/-- C1 witness: the amended contract applied at concrete states. -/
theorem C1_submit_contract_witness :
    processImageStart S0 = S0 ∧
    (processImageStart S2).stage = Stage.recognizing :=
  ⟨C1_submit_contract.1 S0 rfl, (C1_submit_contract.2.1 S2 rfl).1⟩

/-- C2 (counterexample): starting a new recognition attempt does not reset
`ProgressState`: from a ready idle state carrying a stale progress value,
`processImage` enters `recognizing` with the stale value intact. -/
theorem C2_counterexample :
    (processImageStart staleProgressState).stage = Stage.recognizing ∧
    (processImageStart staleProgressState).progress ≠ Progress.mk "" 0 := by decide

/-- C2 (amended): `ProgressState` is reset to empty/zero on every explicit
reset; the start of a new recognition attempt leaves it unchanged (it keeps
its prior value until the first progress event of the new attempt
overwrites it). -/
theorem C2_progress_reset :
    (∀ s : AppState, (handleReset s).progress = Progress.mk "" 0) ∧
    (∀ s : AppState, (processImageStart s).progress = s.progress) := by
  refine ⟨fun s => rfl, fun s => ?_⟩
  cases hw : s.worker with
  | false => rw [processImageStart_worker_none hw]
  | true => exact (processImageStart_worker_some hw).2.2.2.2.2.2.1

/-- C3 (counterexample): unmounting from the reachable recognizing state
`S3` leaves the preview object URL alive: the cleanup terminates the worker
but revokes nothing. -/
theorem C3_counterexample :
    (unmountCleanup S3).image = some 0 ∧
    (unmountCleanup S3).alive = [0] ∧
    (unmountCleanup S3).alive ≠ [] := by decide

/-- C3 (amended): on component unmount the engine handle is terminated and
the worker ref cleared, from any stage; the live `ImageHandle` is not
released on unmount — its object URL stays alive (URLs are revoked only on
replacement and on explicit reset). -/
theorem C3_unmount_cleanup :
    ∀ s : AppState, (unmountCleanup s).worker = false ∧
      (s.worker = true → (unmountCleanup s).engineTerminated = true) ∧
      (unmountCleanup s).alive = s.alive ∧
      (unmountCleanup s).image = s.image := by
  intro s
  exact ⟨rfl, fun h => by simp [unmountCleanup, h], rfl, rfl⟩

/-- C3 witness: the unmount cleanup applied at the concrete state `S3`,
whose worker is present. -/
theorem C3_unmount_cleanup_witness :
    (unmountCleanup S3).worker = false ∧ (unmountCleanup S3).engineTerminated = true :=
  ⟨(C3_unmount_cleanup S3).1, (C3_unmount_cleanup S3).2.1 (by decide)⟩

/-- C4: every image submission that reaches the engine — directly via
`processImage`, via the file-select adapter, or via the clipboard adapter
finding an image item — clears any previous `ErrorMessage` and
`RecognizedText` before the attempt's outcome is known. -/
theorem C4_submission_clears :
    (∀ s : AppState, s.worker = true →
      (processImageStart s).error = none ∧ (processImageStart s).text = "") ∧
    (∀ (s : AppState) (file : Option Unit), s.worker = true → file ≠ none →
      (handleFileSelect file s).error = none ∧ (handleFileSelect file s).text = "") ∧
    (∀ (s : AppState) (items : List ClipboardItem), s.worker = true →
      findImageItem items ≠ none →
      (handlePaste (ClipboardRead.ok items) s).error = none ∧
      (handlePaste (ClipboardRead.ok items) s).text = "") := by
  have base : ∀ s : AppState, s.worker = true →
      (processImageStart s).error = none ∧ (processImageStart s).text = "" := by
    intro s h
    obtain ⟨he, ht, -⟩ := processImageStart_worker_some h
    exact ⟨he, ht⟩
  refine ⟨base, fun s file hw hf => ?_, fun s items hw hfind => ?_⟩
  · cases file with
    | none => exact absurd rfl hf
    | some u => exact base s hw
  · cases hfi : findImageItem items with
    | none => exact absurd hfi hfind
    | some t => simpa [handlePaste, hfi] using base s hw

/-- C4 witness: submissions from the ready state `S2` through all three
routes clear error and text. -/
theorem C4_submission_clears_witness :
    (processImageStart S2).error = none ∧
    (handleFileSelect (some ()) S2).text = "" ∧
    (handlePaste (ClipboardRead.ok [ClipboardItem.mk ["image/png"]]) S2).error = none :=
  ⟨(C4_submission_clears.1 S2 rfl).1,
    (C4_submission_clears.2.1 S2 (some ()) rfl (by decide)).2,
    (C4_submission_clears.2.2 S2 [ClipboardItem.mk ["image/png"]] rfl (by decide)).1⟩

/-- C6 (counterexample): the invariant fails on the program.  Paste is
clicked at `idle` (read pending), a file is then submitted, and the read
rejects: the error is set while the stage is still `recognizing`; the
recognition then resolves, reaching `done` with both text and error set.
Both states are reachable through gated clicks and ungated
continuations. -/
theorem C6_counterexample :
    Reachable raceErrorState ∧
    raceErrorState.error = some pasteDeniedMsg ∧
    raceErrorState.stage = Stage.recognizing ∧
    Reachable raceDoneState ∧
    raceDoneState.stage = Stage.done ∧
    raceDoneState.text = "Hallo Welt" ∧
    raceDoneState.error = some pasteDeniedMsg :=
  ⟨reach_raceError, by decide, by decide, reach_raceDone, by decide, by decide, by decide⟩

/-- C6 (amended): the failure continuations themselves keep the invariant
where they complete undisturbed — an init failure or a recognition failure
returns the stage to `idle`, and every clipboard failure leaves stage and
text unchanged (so one that settles at `idle` stays at `idle` with its
empty text) — but a clipboard read that fails after an intervening
submission entered `recognizing` sets `ErrorMessage` during
`recognizing`, as the counterexample shows. -/
theorem C6_error_scoped :
    (∀ s : AppState, (initFailCont s).stage = Stage.idle ∧
      (initFailCont s).error = some initErrMsg ∧ (initFailCont s).text = s.text) ∧
    (∀ s : AppState, (recognizeFailCont s).stage = Stage.idle) ∧
    (∀ (s : AppState) (b : Bool),
      (pasteSettleCont (PasteOutcome.rejected b) s).stage = s.stage ∧
      (pasteSettleCont (PasteOutcome.rejected b) s).text = s.text ∧
      (pasteSettleCont (PasteOutcome.rejected b) s).error =
        some (if b then pasteDeniedMsg else pasteGenericMsg)) ∧
    (∀ (s : AppState) (items : List ClipboardItem), findImageItem items = none →
      (pasteSettleCont (PasteOutcome.ok items) s).stage = s.stage ∧
      (pasteSettleCont (PasteOutcome.ok items) s).text = s.text ∧
      (pasteSettleCont (PasteOutcome.ok items) s).error = some pasteNoImageMsg) ∧
    (∀ s : AppState, (handlePaste ClipboardRead.unavailable s).stage = s.stage ∧
      (handlePaste ClipboardRead.unavailable s).text = s.text) := by
  refine ⟨fun s => ⟨rfl, rfl, rfl⟩, fun s => rfl, fun s b => ?_,
    fun s items hfind => ?_, fun s => ⟨rfl, rfl⟩⟩
  · cases b <;> exact ⟨rfl, rfl, rfl⟩
  · simp [pasteSettleCont, handlePaste, hfind]

/-- C6 witness: the amended statement applied at the ready idle state `S2`
with a concrete image-free item list. -/
theorem C6_error_scoped_witness :
    (pasteSettleCont (PasteOutcome.ok [ClipboardItem.mk ["text/plain"]]) S2).stage =
      S2.stage ∧
    (pasteSettleCont (PasteOutcome.ok [ClipboardItem.mk ["text/plain"]]) S2).error =
      some pasteNoImageMsg :=
  ⟨(C6_error_scoped.2.2.2.1 S2 [ClipboardItem.mk ["text/plain"]] (by decide)).1,
    (C6_error_scoped.2.2.2.1 S2 [ClipboardItem.mk ["text/plain"]] (by decide)).2.2⟩

/-- C7: the clipboard adapter takes the image type found in the first item
that has one (a type beginning with "image/") and submits via
`processImage`; the three failure modes — API unavailable, permission
denied, no image item — set three pairwise distinct messages, leave the
stage at `idle` and make no recognition call. -/
theorem C7_paste_adapter :
    (∀ s : AppState, s.stage = Stage.idle →
      ((handlePaste ClipboardRead.unavailable s).error = some pasteUnsupportedMsg ∧
       (handlePaste ClipboardRead.unavailable s).stage = Stage.idle ∧
       (handlePaste ClipboardRead.unavailable s).inFlight = s.inFlight) ∧
      ((handlePaste (ClipboardRead.rejected true) s).error = some pasteDeniedMsg ∧
       (handlePaste (ClipboardRead.rejected true) s).stage = Stage.idle ∧
       (handlePaste (ClipboardRead.rejected true) s).inFlight = s.inFlight) ∧
      (∀ items : List ClipboardItem, findImageItem items = none →
       (handlePaste (ClipboardRead.ok items) s).error = some pasteNoImageMsg ∧
       (handlePaste (ClipboardRead.ok items) s).stage = Stage.idle ∧
       (handlePaste (ClipboardRead.ok items) s).inFlight = s.inFlight)) ∧
    (pasteUnsupportedMsg ≠ pasteDeniedMsg ∧ pasteUnsupportedMsg ≠ pasteNoImageMsg ∧
     pasteDeniedMsg ≠ pasteNoImageMsg) ∧
    (∀ (s : AppState) (items : List ClipboardItem), findImageItem items ≠ none →
      handlePaste (ClipboardRead.ok items) s = processImageStart s) ∧
    (∀ (item : ClipboardItem) (rest : List ClipboardItem), findImageType item = none →
      findImageItem (item :: rest) = findImageItem rest) ∧
    (∀ (item : ClipboardItem) (rest : List ClipboardItem) (t : String),
      findImageType item = some t → findImageItem (item :: rest) = some t) ∧
    (∀ item : ClipboardItem,
      findImageType item = item.types.find? (fun t => jsStartsWith t "image/")) := by
  refine ⟨fun s hidle => ⟨⟨rfl, hidle, rfl⟩, ⟨rfl, hidle, rfl⟩, fun items hfind => ?_⟩,
    by refine ⟨?_, ?_, ?_⟩ <;> decide,
    fun s items hfind => ?_, fun item rest hnone => ?_, fun item rest t hsome => ?_,
    fun item => rfl⟩
  · refine ⟨?_, ?_, ?_⟩ <;> simp [handlePaste, hfind, hidle]
  · cases hfi : findImageItem items with
    | none => exact absurd hfi hfind
    | some t => simp [handlePaste, hfi]
  · simp [findImageItem, hnone]
  · simp [findImageItem, hsome]

/-- C7 witness: the paste adapter applied at the ready idle state `S2`,
with a concrete image-free item list and a concrete image-bearing one. -/
theorem C7_paste_adapter_witness :
    (handlePaste ClipboardRead.unavailable S2).error = some pasteUnsupportedMsg ∧
    (handlePaste (ClipboardRead.rejected true) S2).error = some pasteDeniedMsg ∧
    (handlePaste (ClipboardRead.ok [ClipboardItem.mk ["text/plain"]]) S2).error =
      some pasteNoImageMsg ∧
    handlePaste (ClipboardRead.ok [ClipboardItem.mk ["text/plain", "image/png"]]) S2 =
      processImageStart S2 ∧
    findImageItem (ClipboardItem.mk ["text/plain"] :: [ClipboardItem.mk ["image/png"]]) =
      findImageItem [ClipboardItem.mk ["image/png"]] :=
  ⟨((C7_paste_adapter.1 S2 rfl).1).1,
    ((C7_paste_adapter.1 S2 rfl).2.1).1,
    ((C7_paste_adapter.1 S2 rfl).2.2 [ClipboardItem.mk ["text/plain"]] (by decide)).1,
    C7_paste_adapter.2.2.1 S2 [ClipboardItem.mk ["text/plain", "image/png"]] (by decide),
    C7_paste_adapter.2.2.2.1 (ClipboardItem.mk ["text/plain"])
      [ClipboardItem.mk ["image/png"]] (by decide)⟩

/-- C8: when the `recognize` call rejects, the continuation returns the
stage to `idle`, sets the fixed recognition error message, and leaves the
preview `ImageHandle` (and the alive URL set) unchanged; the failure is
handled by a total state transformer, never an uncaught throw. -/
theorem C8_recognize_failure :
    ∀ s : AppState, (recognizeFailCont s).stage = Stage.idle ∧
      (recognizeFailCont s).error = some recognizeErrMsg ∧
      (recognizeFailCont s).image = s.image ∧
      (recognizeFailCont s).alive = s.alive := by
  intro s
  exact ⟨rfl, rfl, rfl, rfl⟩

/-- C10: when `recognize` resolves with the empty string, the continuation
still moves the controller to `done` with empty `RecognizedText`, and such
a `done` state is reachable — so stage `done` does not guarantee a
non-empty result. -/
theorem C10_empty_result_done :
    (∀ s : AppState, (recognizeOkCont "" s).stage = Stage.done ∧
      (recognizeOkCont "" s).text = "") ∧
    (∀ (s : AppState) (t : String), (recognizeOkCont t s).text = t ∧
      (recognizeOkCont t s).stage = Stage.done) ∧
    (Reachable (recognizeOkCont "" S3) ∧
      (recognizeOkCont "" S3).stage = Stage.done ∧ (recognizeOkCont "" S3).text = "") :=
  ⟨fun s => ⟨rfl, rfl⟩, fun s t => ⟨rfl, rfl⟩,
    Reachable.step reach_S3 (Step.recogOk "" (by decide)), rfl, rfl⟩

end OCRApp
